import Mathlib

/-!
Verification of the Canvas2Tutor migration pipeline (Canvas → Tutor LMS).

Shallow embedding of the content-resolution and transformation engine:
the manifest organization parser (`src/parsers/manifest_parser.py`), the
orphaned-content reconciler (`src/parsers/orphaned_content_handler.py`
and the wiring in `src/stages/parser.py`), the question parser
(`src/parsers/question_parser.py`), the course transformer
(`src/transformers/course_transformer.py`), the asset-path rewriter
(`src/utils/html_utils.py`) and the configuration tables
(`src/config/tutor_schemas.py`, `src/config/canvas_schemas.py`).

Modeling conventions:
* Python `float` fields (points, weights, marks) are modeled as `ℚ`.
* Python `Optional[str]` is `Option String`; Python truthiness of an
  optional string (`if x:`) is `none` and `some ""` both falsy.
* Python dicts keyed by strings are association lists (`List (String × _)`)
  when order matters, or functions `String → Nat` for pure counters.
* `datetime` fields, free-text diagnostic `message`/`suggested_action`
  strings, and model fields that no modeled code path ever reads
  (feedback, rubrics, due dates, nested sub-items of module items, ...)
  are elided; every field that the embedded functions read or write is
  kept with its source name.
-/

set_option autoImplicit false

namespace Canvas2Tutor

/-! ## String utilities

Python string operations used by the engine, modeled on `List Char` /
`String`.  `containsSub hay needle` is Python `needle in hay`. -/

/-- One probe of Python substring search: does `needle` start at offset `i`? -/
def matchesAt (needle hay : List Char) (i : Nat) : Bool :=
  needle.isPrefixOf (hay.drop i)

/-- Python `needle in hay` on `List Char`. -/
def containsChars (hay needle : List Char) : Bool :=
  (List.range (hay.length + 1)).any (fun i => matchesAt needle hay i)

/-- Python `needle in hay` on `String`. -/
def containsSub (hay needle : String) : Bool :=
  containsChars hay.data needle.data

/-- Python `.lower()` composed after `.replace('/', '\\')`, as done per
character in `CourseTransformer._find_page`. -/
def normChar (c : Char) : Char :=
  if c = '/' then '\\' else c.toLower

/-- Path normalization of `CourseTransformer._find_page`:
`path.replace('/', '\\').lower()`. -/
def normPath (s : String) : String :=
  ⟨s.data.map normChar⟩

/-- Helper for `fileName`: scan the characters, restarting the
accumulator after every `/`. -/
def fileNameAux : List Char → List Char → List Char
  | [], acc => acc.reverse
  | c :: rest, acc =>
    if c = '/' then fileNameAux rest [] else fileNameAux rest (c :: acc)

/-- `pathlib.Path.name`: the final `/`-separated component of a relative path. -/
def fileName (p : String) : String :=
  ⟨fileNameAux p.data []⟩

/-- Python `.lower()`, per character. -/
def lowerStr (s : String) : String :=
  ⟨s.data.map Char.toLower⟩

/-- Python truthiness of an `Optional[str]`: `None` and `""` are falsy. -/
def truthyStr : Option String → Bool
  | none => false
  | some s => !s.data.isEmpty

/-! ## Asset-path rewriting (`src/utils/html_utils.py`,
`rewrite_canvas_asset_paths`)

The function applies two `re.sub` passes over the content: first the raw
placeholder `$IMS-CC-FILEBASE$/([^"')\s]+)`, then the percent-encoded
placeholder `%24IMS-CC-FILEBASE%24/([^"')\s]+)`, each replaced by the
base path followed by the captured group.  `subFilebaseAux` models one
`re.sub` pass: a left-to-right scan that, at each offset, matches the
literal token followed by a maximal nonempty run of characters outside
the class `"')` and whitespace, substitutes, and resumes after the
match.  The model assumes the base path contains no `re` replacement
escapes, which holds for every call site (`"../../assets/"`). -/

/-- Python's `\s` class (ASCII part), as excluded by the asset-path regex. -/
def pyWhitespace (c : Char) : Bool :=
  c = ' ' || c = '\t' || c = '\n' || c = '\r' || c = '\x0b' || c = '\x0c'

/-- Characters admissible inside the captured asset path: `[^"')\s]`. -/
def allowedAssetChar (c : Char) : Bool :=
  !(c = '"' || c = '\'' || c = ')' || pyWhitespace c)

/-- One `re.sub` pass for pattern `tok([^"')\s]+)` with replacement
`base\1`, with explicit fuel (one unit per scanned position; `fuel =
length of the input` suffices because every step consumes at least one
character). -/
def subFilebaseAux (tok base : List Char) : Nat → List Char → List Char
  | 0, l => l
  | _ + 1, [] => []
  | fuel + 1, c :: rest =>
    if tok.isPrefixOf (c :: rest) then
      let after := (c :: rest).drop tok.length
      let run := after.takeWhile allowedAssetChar
      if run.isEmpty then
        c :: subFilebaseAux tok base fuel rest
      else
        base ++ run ++ subFilebaseAux tok base fuel (after.drop run.length)
    else
      c :: subFilebaseAux tok base fuel rest

/-- One `re.sub` pass over a character list. -/
def subFilebase (tok base l : List Char) : List Char :=
  subFilebaseAux tok base l.length l

/-- The raw placeholder token `$IMS-CC-FILEBASE$/`. -/
def rawToken : List Char := "$IMS-CC-FILEBASE$/".data

/-- The percent-encoded placeholder token `%24IMS-CC-FILEBASE%24/`. -/
def pctToken : List Char := "%24IMS-CC-FILEBASE%24/".data

/-- `rewrite_canvas_asset_paths(content, base_path)`: empty content is
returned as `""`; otherwise the raw-token pass runs first and the
percent-token pass runs on its output. -/
def rewriteCanvasAssetPaths (content : String) (basePath : String) : String :=
  if content = "" then ""
  else ⟨subFilebase pctToken basePath.data (subFilebase rawToken basePath.data content.data)⟩

/-- The base path used by every transformer call site
(`"../../assets/"`). -/
def assetsBase : String := "../../assets/"

/-! ## Canvas data model (`src/models/canvas_models.py`) -/

/-- Canvas workflow states. -/
inductive WorkflowState
  | active
  | unpublished
  | deleted
deriving DecidableEq

/-- The `.value` of a `WorkflowState` enum member. -/
def WorkflowState.value : WorkflowState → String
  | .active => "active"
  | .unpublished => "unpublished"
  | .deleted => "deleted"

/-- Canvas question types (QTI-compliant). -/
inductive QuestionType
  | multipleChoice
  | trueFalse
  | fillInBlank
  | essay
  | shortAnswer
  | matching
  | numerical
  | calculated
  | multipleAnswers
  | fileUpload
  | textOnly
  | multipleDropdowns
  | formula
  | categorization
  | ordering
deriving DecidableEq

/-- The `.value` of a `QuestionType` enum member. -/
def QuestionType.value : QuestionType → String
  | .multipleChoice => "multiple_choice_question"
  | .trueFalse => "true_false_question"
  | .fillInBlank => "fill_in_multiple_blanks_question"
  | .essay => "essay_question"
  | .shortAnswer => "short_answer_question"
  | .matching => "matching_question"
  | .numerical => "numerical_question"
  | .calculated => "calculated_question"
  | .multipleAnswers => "multiple_answers_question"
  | .fileUpload => "file_upload_question"
  | .textOnly => "text_only_question"
  | .multipleDropdowns => "multiple_dropdowns_question"
  | .formula => "formula_question"
  | .categorization => "categorization_question"
  | .ordering => "ordering_question"

/-- A resource declared in `imsmanifest.xml` (`CanvasResource`). -/
structure CanvasResource where
  identifier : String
  href : Option String
  type : Option String
  file_exists : Bool
deriving DecidableEq

/-- An item within a Canvas module (`CanvasModuleItem`).  Nested
sub-items are elided: the transformer never reads them. -/
structure CanvasModuleItem where
  title : String
  identifier : Option String
  content_type : Option String
  content_file : Option String
  position : Option Nat
  workflow_state : WorkflowState
deriving DecidableEq

/-- A Canvas module (`CanvasModule`). -/
structure CanvasModule where
  title : String
  identifier : Option String
  position : Nat
  items : List CanvasModuleItem
  workflow_state : WorkflowState
deriving DecidableEq

/-- A Canvas wiki page (`CanvasPage`). -/
structure CanvasPage where
  title : String
  identifier : String
  body : String
  workflow_state : WorkflowState
  source_file : Option String
deriving DecidableEq

/-- A Canvas assignment (`CanvasAssignment`). -/
structure CanvasAssignment where
  title : String
  identifier : String
  description : String
  points_possible : ℚ
  grading_type : String
  workflow_state : WorkflowState
  source_file : Option String
deriving DecidableEq

/-- A possible answer for a Canvas question (`CanvasQuestionAnswer`). -/
structure CanvasQuestionAnswer where
  id : String
  text : String
  weight : ℚ
deriving DecidableEq

/-- A Canvas quiz question (`CanvasQuestion`). -/
structure CanvasQuestion where
  identifier : String
  title : String
  question_type : QuestionType
  question_text : String
  points_possible : ℚ
  answers : List CanvasQuestionAnswer
  source_file : Option String
deriving DecidableEq

/-- A Canvas quiz (`CanvasQuiz`).  `time_limit` is in minutes. -/
structure CanvasQuiz where
  title : String
  identifier : String
  description : String
  points_possible : ℚ
  time_limit : Option Int
  allowed_attempts : Int
  questions : List CanvasQuestion
  workflow_state : WorkflowState
  source_file : Option String
deriving DecidableEq

/-- The parsed Canvas course (`CanvasCourse`).  `resources` keeps the
manifest dict as an insertion-ordered association list. -/
structure CanvasCourse where
  title : String
  identifier : Option String
  modules : List CanvasModule
  pages : List CanvasPage
  assignments : List CanvasAssignment
  quizzes : List CanvasQuiz
  resources : List (String × CanvasResource)
  workflow_state : WorkflowState
deriving DecidableEq

/-! ## Diagnostics (`src/models/migration_report.py`) -/

/-- Diagnostic severity levels (`ErrorSeverity`). -/
inductive ErrorSeverity
  | critical
  | error
  | warning
  | info
deriving DecidableEq

/-- A migration diagnostic (`MigrationError`); free-text `message` and
`suggested_action` and the timestamp are elided. -/
structure MigrationError where
  severity : ErrorSeverity
  error_type : String
  canvas_entity_type : Option String
  canvas_entity_id : Option String
deriving DecidableEq

/-! ## Tutor LMS data model (`src/models/tutor_models.py`) -/

/-- Tutor LMS question types (`TutorQuestionType`). -/
inductive TutorQuestionType
  | multipleChoice
  | trueFalse
  | fillInBlank
  | openEnded
  | shortAnswer
  | matching
  | imageMatching
  | imageAnswering
  | ordering
deriving DecidableEq

/-- The `TutorQuestionType(value)` enum constructor; `ValueError` for an
unknown value is modeled as `none`. -/
def tutorQuestionTypeOfString : String → Option TutorQuestionType
  | "multiple_choice" => some .multipleChoice
  | "true_false" => some .trueFalse
  | "fill_in_the_blank" => some .fillInBlank
  | "open_ended" => some .openEnded
  | "short_answer" => some .shortAnswer
  | "matching" => some .matching
  | "image_matching" => some .imageMatching
  | "image_answering" => some .imageAnswering
  | "ordering" => some .ordering
  | _ => none

/-- An answer of a Tutor question (`TutorQuestionAnswer`). -/
structure TutorQuestionAnswer where
  answer_title : String
  is_correct : Bool
  answer_order : Nat
deriving DecidableEq

/-- A Tutor quiz question (`TutorQuestion`). -/
structure TutorQuestion where
  question_title : String
  question_description : String
  question_type : TutorQuestionType
  question_mark : ℚ
  answers : List TutorQuestionAnswer
  question_order : Nat
  source_canvas_id : Option String
deriving DecidableEq

/-- The `time_limit` entry of the quiz-option dict. -/
structure TimeLimitOpt where
  time_value : Int
  time_type : String
deriving DecidableEq

/-- The quiz-option dict (`TUTOR_QUIZ_SETTINGS` shape,
`src/config/tutor_schemas.py`). -/
structure QuizOption where
  time_limit : TimeLimitOpt
  hide_quiz_time_display : Bool
  attempts_allowed : Int
  passing_grade : Nat
  max_questions_for_answer : Nat
  quiz_auto_start : Bool
  question_layout_view : String
  questions_order : String
  hide_question_number_overview : Bool
  short_answer_characters_limit : Nat
  open_ended_answer_characters_limit : Nat
  feedback_mode : String
deriving DecidableEq

/-- `TUTOR_QUIZ_SETTINGS` (`src/config/tutor_schemas.py`). -/
def TUTOR_QUIZ_SETTINGS : QuizOption where
  time_limit := ⟨0, "minutes"⟩
  hide_quiz_time_display := false
  attempts_allowed := 10
  passing_grade := 80
  max_questions_for_answer := 10
  quiz_auto_start := false
  question_layout_view := "single_question"
  questions_order := "rand"
  hide_question_number_overview := false
  short_answer_characters_limit := 200
  open_ended_answer_characters_limit := 500
  feedback_mode := "default"

/-- The assignment-option dict (`TUTOR_ASSIGNMENT_SETTINGS` shape); the
`time_duration` sub-dict is inlined as two fields, `attachments` is
elided (never written by the transformer). -/
structure AssignmentOption where
  total_mark : ℚ
  pass_mark : ℚ
  upload_files_limit : Nat
  upload_file_size_limit : Nat
  time_duration_value : Nat
  time_duration_time : String
deriving DecidableEq

/-- `TUTOR_ASSIGNMENT_SETTINGS` (`src/config/tutor_schemas.py`). -/
def TUTOR_ASSIGNMENT_SETTINGS : AssignmentOption where
  total_mark := 10
  pass_mark := 5
  upload_files_limit := 1
  upload_file_size_limit := 2
  time_duration_value := 0
  time_duration_time := "weeks"

/-- A Tutor lesson (`TutorLesson`). -/
structure TutorLesson where
  post_title : String
  post_content : String
  post_status : String
  menu_order : Nat
  source_canvas_id : Option String
deriving DecidableEq

/-- A Tutor quiz (`TutorQuiz`). -/
structure TutorQuiz where
  post_title : String
  post_content : String
  post_status : String
  quiz_option : QuizOption
  questions : List TutorQuestion
  menu_order : Nat
  source_canvas_id : Option String
deriving DecidableEq

/-- A Tutor assignment (`TutorAssignment`). -/
structure TutorAssignment where
  post_title : String
  post_content : String
  post_status : String
  assignment_option : AssignmentOption
  menu_order : Nat
  source_canvas_id : Option String
deriving DecidableEq

/-- A Tutor topic (`TutorTopic`). -/
structure TutorTopic where
  topic_title : String
  topic_order : Nat
  lessons : List TutorLesson
  quizzes : List TutorQuiz
  assignments : List TutorAssignment
  source_canvas_id : Option String
deriving DecidableEq

/-- A Tutor course (`TutorCourse`); standalone quizzes and course
settings are elided (never written by the transformer). -/
structure TutorCourse where
  post_title : String
  post_content : String
  post_status : String
  topics : List TutorTopic
  source_canvas_course_id : Option String
deriving DecidableEq

/-- The transformation report (`TransformationReport`); timestamp and
the unused unsupported-feature lists are elided.  The question-type
histogram is modeled as a counter function. -/
structure TransformationReport where
  lessons_created : Nat
  quizzes_created : Nat
  assignments_created : Nat
  questions_created : Nat
  topics_created : Nat
  question_type_mappings : String → Nat
  errors : List MigrationError

/-! ## Configuration tables (`src/config/tutor_schemas.py`,
`src/config/canvas_schemas.py`) -/

/-- `QUESTION_TYPE_MAPPING.get(k)`: Canvas question-type string → Tutor
question-type string.  A key mapped to Python `None`
(`text_only_question`, an explicit skip) and an absent key are
indistinguishable through `.get` and both yield `none`. -/
def QUESTION_TYPE_MAPPING : String → Option String
  | "multiple_choice_question" => some "multiple_choice"
  | "true_false_question" => some "true_false"
  | "essay_question" => some "open_ended"
  | "short_answer_question" => some "short_answer"
  | "fill_in_multiple_blanks_question" => some "fill_in_the_blank"
  | "matching_question" => some "matching"
  | "numerical_question" => some "short_answer"
  | "calculated_question" => some "open_ended"
  | "multiple_answers_question" => some "multiple_choice"
  | "file_upload_question" => some "open_ended"
  | "text_only_question" => none
  | "multiple_dropdowns_question" => some "multiple_choice"
  | "formula_question" => some "open_ended"
  | "categorization_question" => some "matching"
  | "ordering_question" => some "ordering"
  | _ => none

/-- `CANVAS_TO_WP_STATUS.get(k)`. -/
def CANVAS_TO_WP_STATUS : String → Option String
  | "active" => some "publish"
  | "unpublished" => some "draft"
  | "deleted" => some "trash"
  | _ => none

/-- `CANVAS_TO_WP_STATUS.get(state.value, 'publish')` as used at every
transformer call site. -/
def wpStatusOf (w : WorkflowState) : String :=
  (CANVAS_TO_WP_STATUS w.value).getD "publish"

/-- `SYSTEM_XML_FILES` (`src/config/canvas_schemas.py`); a Python set,
modeled as a list used only through membership. -/
def SYSTEM_XML_FILES : List String :=
  ["imsmanifest.xml", "course_settings.xml", "module_meta.xml",
   "assignment_settings.xml", "syllabus.html"]

/-! ## Course transformer (`src/transformers/course_transformer.py`)

The `CourseTransformer` instance state (`self.errors`,
`self.question_type_counts`, `self.processed_assignments`) is threaded
explicitly as `TransformerState`.  `processed_assignments` is a Python
set used only through membership and insertion, modeled as a list. -/

/-- The mutable state of a `CourseTransformer` instance. -/
structure TransformerState where
  errors : List MigrationError
  question_type_counts : String → Nat
  processed_assignments : List String

/-- The state of a freshly constructed `CourseTransformer`. -/
def initialTransformerState : TransformerState :=
  { errors := [], question_type_counts := fun _ => 0, processed_assignments := [] }

/-- `self.question_type_counts[k] = self.question_type_counts.get(k, 0) + 1`. -/
def incCount (f : String → Nat) (k : String) : String → Nat :=
  fun x => if x = k then f k + 1 else f x

/-- Loop body of `CourseTransformer._find_page`: identifier match first,
then the case-insensitive separator-normalized substring match between
the declared content file and the page source file. -/
def findPageAux (item : CanvasModuleItem) : List CanvasPage → Option CanvasPage
  | [] => none
  | p :: rest =>
    if item.identifier = some p.identifier then some p
    else if truthyStr item.content_file && truthyStr p.source_file
        && containsSub (normPath ((p.source_file).getD ""))
             (normPath ((item.content_file).getD "")) then some p
    else findPageAux item rest

/-- `CourseTransformer._find_page`. -/
def findPage (course : CanvasCourse) (item : CanvasModuleItem) : Option CanvasPage :=
  findPageAux item course.pages

/-- Loop body of `CourseTransformer._find_quiz`: identifier match first,
then a raw (case-sensitive, non-normalized) substring match. -/
def findQuizAux (item : CanvasModuleItem) : List CanvasQuiz → Option CanvasQuiz
  | [] => none
  | q :: rest =>
    if item.identifier = some q.identifier then some q
    else if truthyStr item.content_file && truthyStr q.source_file
        && containsSub ((q.source_file).getD "") ((item.content_file).getD "") then some q
    else findQuizAux item rest

/-- `CourseTransformer._find_quiz`. -/
def findQuiz (course : CanvasCourse) (item : CanvasModuleItem) : Option CanvasQuiz :=
  findQuizAux item course.quizzes

/-- Loop body of `CourseTransformer._find_assignment`: identifier match
first, then a raw (case-sensitive, non-normalized) substring match. -/
def findAssignmentAux (item : CanvasModuleItem) :
    List CanvasAssignment → Option CanvasAssignment
  | [] => none
  | a :: rest =>
    if item.identifier = some a.identifier then some a
    else if truthyStr item.content_file && truthyStr a.source_file
        && containsSub ((a.source_file).getD "") ((item.content_file).getD "") then some a
    else findAssignmentAux item rest

/-- `CourseTransformer._find_assignment`. -/
def findAssignment (course : CanvasCourse) (item : CanvasModuleItem) :
    Option CanvasAssignment :=
  findAssignmentAux item course.assignments

/-- `CourseTransformer._transform_page_to_lesson`. -/
def transformPageToLesson (page : CanvasPage) (order : Nat) : TutorLesson where
  post_title := page.title
  post_content := rewriteCanvasAssetPaths page.body assetsBase
  post_status := wpStatusOf page.workflow_state
  menu_order := order
  source_canvas_id := some page.identifier

/-- `CourseTransformer._transform_question`:  the source-type histogram
is bumped unconditionally; an unmapped type (`.get` returns `None`)
records an `UNSUPPORTED_QUESTION_TYPE` warning and returns `None`; a
mapped string outside the `TutorQuestionType` enum falls back to
`open_ended` with a `QUESTION_TYPE_FALLBACK` warning; answers map
`is_correct := weight >= 100` with `answer_order` the running length. -/
def transformQuestion (s : TransformerState) (question : CanvasQuestion)
    (order : Nat) : TransformerState × Option TutorQuestion :=
  let canvasType := question.question_type.value
  let s1 : TransformerState :=
    { s with question_type_counts := incCount s.question_type_counts canvasType }
  match QUESTION_TYPE_MAPPING canvasType with
  | none =>
    ({ s1 with errors := s1.errors ++
        [{ severity := .warning, error_type := "UNSUPPORTED_QUESTION_TYPE",
           canvas_entity_type := some "question",
           canvas_entity_id := some question.identifier }] }, none)
  | some tutorTypeStr =>
    let (tutorType, s2) :=
      match tutorQuestionTypeOfString tutorTypeStr with
      | some t => (t, s1)
      | none =>
        (TutorQuestionType.openEnded,
         { s1 with errors := s1.errors ++
            [{ severity := .warning, error_type := "QUESTION_TYPE_FALLBACK",
               canvas_entity_type := some "question",
               canvas_entity_id := some question.identifier }] })
    let answers :=
      question.answers.enum.map (fun (p : Nat × CanvasQuestionAnswer) =>
        ({ answer_title := rewriteCanvasAssetPaths p.2.text assetsBase
           is_correct := decide (100 ≤ p.2.weight)
           answer_order := p.1 } : TutorQuestionAnswer))
    (s2, some
      { question_title := question.title
        question_description := rewriteCanvasAssetPaths question.question_text assetsBase
        question_type := tutorType
        question_mark := question.points_possible
        answers := answers
        question_order := order
        source_canvas_id := some question.identifier })

/-- The question loop of `CourseTransformer._transform_quiz`
(`for position, question in enumerate(quiz.questions)`), keeping only
the non-`None` results. -/
def transformQuestions (s : TransformerState) :
    List CanvasQuestion → Nat → TransformerState × List TutorQuestion
  | [], _ => (s, [])
  | q :: rest, pos =>
    let (s1, tq?) := transformQuestion s q pos
    let (s2, out) := transformQuestions s1 rest (pos + 1)
    match tq? with
    | some tq => (s2, tq :: out)
    | none => (s2, out)

/-- `CourseTransformer._transform_quiz`.  `if quiz.time_limit:` is a
truthiness test, so `None` and `0` both keep the default time limit. -/
def transformQuiz (s : TransformerState) (quiz : CanvasQuiz) (order : Nat) :
    TransformerState × TutorQuiz :=
  let qo0 := TUTOR_QUIZ_SETTINGS
  let qo1 :=
    match quiz.time_limit with
    | some t => if t ≠ 0 then { qo0 with time_limit := ⟨t, "minutes"⟩ } else qo0
    | none => qo0
  let qo := { qo1 with attempts_allowed := quiz.allowed_attempts }
  let (s1, qs) := transformQuestions s quiz.questions 0
  (s1,
    { post_title := quiz.title
      post_content := rewriteCanvasAssetPaths quiz.description assetsBase
      post_status := wpStatusOf quiz.workflow_state
      quiz_option := qo
      questions := qs
      menu_order := order
      source_canvas_id := some quiz.identifier })

/-- `CourseTransformer._transform_assignment`: copies the default
settings, overrides `total_mark` with the source points and `pass_mark`
with 60% of them, and marks the identifier processed. -/
def transformAssignment (s : TransformerState) (assignment : CanvasAssignment)
    (order : Nat) : TransformerState × TutorAssignment :=
  let opt := { TUTOR_ASSIGNMENT_SETTINGS with
    total_mark := assignment.points_possible
    pass_mark := assignment.points_possible * (6 / 10 : ℚ) }
  ({ s with processed_assignments := assignment.identifier :: s.processed_assignments },
    { post_title := assignment.title
      post_content := rewriteCanvasAssetPaths assignment.description assetsBase
      post_status := wpStatusOf assignment.workflow_state
      assignment_option := opt
      menu_order := order
      source_canvas_id := some assignment.identifier })

/-- The item loop of `CourseTransformer._transform_module_to_topic`:
each item dispatches on `content_type` to the matching finder and
transformer; unmatched items and other content types add nothing. -/
def transformModuleItems (course : CanvasCourse) (s : TransformerState) :
    List CanvasModuleItem →
      TransformerState × List TutorLesson × List TutorQuiz × List TutorAssignment
  | [] => (s, [], [], [])
  | item :: rest =>
    if item.content_type = some "page" then
      match findPage course item with
      | some page =>
        let lesson := transformPageToLesson page ((item.position).getD 0)
        let (s1, ls, qs, asg) := transformModuleItems course s rest
        (s1, lesson :: ls, qs, asg)
      | none => transformModuleItems course s rest
    else if item.content_type = some "quiz" then
      match findQuiz course item with
      | some quiz =>
        let (s1, tq) := transformQuiz s quiz ((item.position).getD 0)
        let (s2, ls, qs, asg) := transformModuleItems course s1 rest
        (s2, ls, tq :: qs, asg)
      | none => transformModuleItems course s rest
    else if item.content_type = some "assignment" then
      match findAssignment course item with
      | some assignment =>
        let (s1, ta) := transformAssignment s assignment ((item.position).getD 0)
        let (s2, ls, qs, asg) := transformModuleItems course s1 rest
        (s2, ls, qs, ta :: asg)
      | none => transformModuleItems course s rest
    else
      transformModuleItems course s rest

/-- `CourseTransformer._transform_module_to_topic`. -/
def transformModuleToTopic (course : CanvasCourse) (s : TransformerState)
    (m : CanvasModule) : TransformerState × TutorTopic :=
  let (s1, ls, qs, asg) := transformModuleItems course s m.items
  (s1,
    { topic_title := m.title
      topic_order := m.position
      lessons := ls
      quizzes := qs
      assignments := asg
      source_canvas_id := m.identifier })

/-- The module loop of `CourseTransformer.transform`; every module
yields a topic (the `if topic:` guard is always truthy). -/
def transformModulesAux (course : CanvasCourse) (s : TransformerState) :
    List CanvasModule → TransformerState × List TutorTopic
  | [] => (s, [])
  | m :: rest =>
    let (s1, t) := transformModuleToTopic course s m
    let (s2, ts) := transformModulesAux course s1 rest
    (s2, t :: ts)

/-- The orphaned-assignment loop of `CourseTransformer.transform`
(`for i, assignment in enumerate(orphaned_assignments)`). -/
def transformOrphanAssignments (s : TransformerState) :
    List CanvasAssignment → Nat → TransformerState × List TutorAssignment
  | [], _ => (s, [])
  | a :: rest, i =>
    let (s1, ta) := transformAssignment s a i
    let (s2, tas) := transformOrphanAssignments s1 rest (i + 1)
    (s2, ta :: tas)

/-- `CourseTransformer.transform`: module topics in order, then — when
any parsed assignment identifier was never processed by a module item —
one synthetic "Assignments" topic appended last, holding those
assignments; finally the counters and accumulated diagnostics are
written into the report. -/
def transform (course : CanvasCourse) : TutorCourse × TransformationReport :=
  let s0 := initialTransformerState
  let (s1, moduleTopics) := transformModulesAux course s0 course.modules
  let orphaned := course.assignments.filter
    (fun a => !(s1.processed_assignments.contains a.identifier))
  let (s2, topics) :=
    if orphaned.isEmpty then (s1, moduleTopics)
    else
      let (s2, tas) := transformOrphanAssignments s1 orphaned 0
      (s2, moduleTopics ++
        [{ topic_title := "Assignments"
           topic_order := moduleTopics.length + 1
           lessons := []
           quizzes := []
           assignments := tas
           source_canvas_id := some "orphaned_assignments_topic" }])
  let report : TransformationReport :=
    { topics_created := topics.length
      lessons_created := (topics.map (fun t => t.lessons.length)).sum
      quizzes_created := (topics.map (fun t => t.quizzes.length)).sum
      assignments_created := (topics.map (fun t => t.assignments.length)).sum
      questions_created :=
        (topics.map (fun t => (t.quizzes.map (fun q => q.questions.length)).sum)).sum
      question_type_mappings := s2.question_type_counts
      errors := s2.errors }
  ({ post_title := course.title
     post_content := "Course: " ++ course.title
     post_status := wpStatusOf course.workflow_state
     topics := topics
     source_canvas_course_id := course.identifier }, report)

/-! ## Manifest organization parsing (`src/parsers/manifest_parser.py`)

An `<item>` element of the organization section, as seen through the
XML helpers: `title` is the text of the title child element (absent
element modeled as `none`), `identifier` / `identifierref` are
attributes (absent modeled as `none`).  Sub-items of child items are
dropped by the embedding one level below the module/item depth, the
only depth the organization claims are about. -/
inductive OrgItem where
  | mk (title : Option String) (identifier : Option String)
      (identifierref : Option String) (children : List OrgItem)

/-- The title child element text of an organization item. -/
def OrgItem.title : OrgItem → Option String
  | .mk t _ _ _ => t

/-- The `identifier` attribute of an organization item. -/
def OrgItem.identifier : OrgItem → Option String
  | .mk _ i _ _ => i

/-- The `identifierref` attribute of an organization item. -/
def OrgItem.identifierref : OrgItem → Option String
  | .mk _ _ r _ => r

/-- The child `<item>` elements of an organization item. -/
def OrgItem.children : OrgItem → List OrgItem
  | .mk _ _ _ cs => cs

/-- Dict lookup `resources[ref]` on the resource map, which the parser
builds in manifest order keyed by the `identifier` attribute. -/
def lookupResource (resources : List (String × CanvasResource)) (ref : String) :
    Option CanvasResource :=
  (resources.find? (fun p => p.1 = ref)).map (·.2)

/-- The content-type inference of `ManifestParser._parse_child_item`:
substring checks against the declared resource type, in source order;
an unmatched type leaves `content_type` unset. -/
def inferContentType (resType : String) : Option String :=
  let lt := lowerStr resType
  if containsSub lt "assessment" then some "quiz"
  else if containsSub lt "assignment" then some "assignment"
  else if containsSub lt "webcontent" then some "page"
  else if containsSub lt "discussion" then some "discussion"
  else if containsSub lt "associatedcontent" then some "assignment"
  else none

/-- `ManifestParser._parse_child_item` (sub-items elided, see
`OrgItem`): resolves `identifierref` (when truthy and present in the
resource map) to a content file and an inferred content type. -/
def parseChildItem (resources : List (String × CanvasResource)) (it : OrgItem)
    (position : Nat) : CanvasModuleItem :=
  let contentInfo : Option String × Option String :=
    match it.identifierref with
    | none => (none, none)
    | some ref =>
      if ref = "" then (none, none)
      else
        match lookupResource resources ref with
        | none => (none, none)
        | some resource =>
          let ctype :=
            match resource.type with
            | none => none
            | some t => if t = "" then none else inferContentType t
          (ctype, resource.href)
  { title := (it.title).getD "Untitled Item"
    identifier := it.identifier
    content_type := contentInfo.1
    content_file := contentInfo.2
    position := some position
    workflow_state := .active }

/-- The child loop of `ManifestParser._parse_module_item`
(`for child_position, child_elem in enumerate(children)`); the
`if child_item:` guard is always truthy. -/
def parseChildItems (resources : List (String × CanvasResource)) :
    List OrgItem → Nat → List CanvasModuleItem
  | [], _ => []
  | c :: rest, pos => parseChildItem resources c pos :: parseChildItems resources rest (pos + 1)

/-- `ManifestParser._parse_module_item`. -/
def parseModuleItem (resources : List (String × CanvasResource)) (it : OrgItem)
    (position : Nat) : CanvasModule :=
  { title := (it.title).getD "Untitled Module"
    identifier := it.identifier
    position := position
    items := parseChildItems resources it.children 0
    workflow_state := .active }

/-- The module loop of `ManifestParser._parse_organization`
(`for position, item_elem in enumerate(items)`); the `if module:` guard
is always truthy. -/
def parseModuleItemList (resources : List (String × CanvasResource)) :
    List OrgItem → Nat → List CanvasModule
  | [], _ => []
  | it :: rest, pos =>
    parseModuleItem resources it pos :: parseModuleItemList resources rest (pos + 1)

/-- `ManifestParser._parse_organization`, from the list of top-level
`<item>` elements onward: when exactly one top-level item is found and
it has children, the children replace it as the module list (wrapper
flattening); then each remaining item becomes a module. -/
def parseOrganization (resources : List (String × CanvasResource))
    (topItems : List OrgItem) : List CanvasModule :=
  let items :=
    match topItems with
    | [root] => if root.children.isEmpty then [root] else root.children
    | l => l
  parseModuleItemList resources items 0

/-! ## Orphan reconciliation (`src/parsers/orphaned_content_handler.py`
and the wiring in `src/stages/parser.py`) -/

/-- `OrphanedContentHandler.find_orphaned_xml_files`, over the relative
paths of the `*.xml` files that `rglob` discovers under `courseDir`: a
file survives unless its name is a system file, its absolute path
contains `'tutor_lms_output'`, or its relative path is in the
referenced set. -/
def findOrphanedXmlFiles (courseDir : String) (xmlFiles : List String)
    (referencedFiles : List String) : List String :=
  xmlFiles.filter (fun rel =>
    !(SYSTEM_XML_FILES.contains (fileName rel))
    && !(containsSub (courseDir ++ "/" ++ rel) "tutor_lms_output")
    && !(referencedFiles.contains rel))

/-- The referenced-file set that `Parser.parse` actually passes to the
orphan handler (`referenced_files = set(course.resources.keys())`,
`src/stages/parser.py` line 133): the manifest resource *identifiers*. -/
def parserReferencedFiles (resources : List (String × CanvasResource)) : List String :=
  resources.map (·.1)

/-- The declared-href set that `Parser.parse` computes earlier with the
comment "Determine referenced_files set for orphan check later"
(`src/stages/parser.py` lines 86-89) and then overwrites:
`set(r.href for r in course.resources.values() if r.href)`. -/
def declaredHrefs (resources : List (String × CanvasResource)) : List String :=
  resources.filterMap (fun p =>
    match p.2.href with
    | some h => if h = "" then none else some h
    | none => none)

/-- The default output directory of `MigrationPipeline.__init__`
(`Canvas_Converter.py`): `course_directory / "lms_output"`. -/
def defaultOutputDirName : String := "lms_output"

/-! ## Question-type determination (`src/parsers/question_parser.py`,
`QuestionParser._determine_question_type`) -/

/-- The question document as `_determine_question_type` reads it:
`type_field = some t` means a `question_type` element is present with
text `t` (the `get_element_text` default `""` already applied);
`response_cardinality = some c?` means a `responseDeclaration` element
is present, with `c?` its optional `cardinality` attribute. -/
structure QuestionTypeDoc where
  type_field : Option String
  response_cardinality : Option (Option String)
deriving DecidableEq

/-- The fixed explicit-type table of `_determine_question_type`
(`type_mapping`, lines 141-153). -/
def questionTypeTable : String → Option QuestionType
  | "multiple_choice_question" => some .multipleChoice
  | "true_false_question" => some .trueFalse
  | "essay_question" => some .essay
  | "short_answer_question" => some .shortAnswer
  | "fill_in_multiple_blanks_question" => some .fillInBlank
  | "matching_question" => some .matching
  | "numerical_question" => some .numerical
  | "calculated_question" => some .calculated
  | "multiple_answers_question" => some .multipleAnswers
  | "file_upload_question" => some .fileUpload
  | "text_only_question" => some .textOnly
  | _ => none

/-- `QuestionParser._determine_question_type`: the explicit type field,
lowercased, through the table with default essay; else cardinality
inference (attribute default `'single'`); else essay. -/
def determineQuestionType (doc : QuestionTypeDoc) : QuestionType :=
  match doc.type_field with
  | some txt => (questionTypeTable (lowerStr txt)).getD .essay
  | none =>
    match doc.response_cardinality with
    | some card? =>
      let c := card?.getD "single"
      if c = "multiple" then .multipleAnswers
      else if c = "single" then .multipleChoice
      else .essay
    | none => .essay

/-- Modeled from the spec (§4.2): the three-step question-type policy
as the specification words it — (1) an explicit type field present is
mapped through the fixed type-string table defaulting to essay for
unknown values; else (2) a present response declaration infers
multiple-answer from cardinality `multiple` and multiple-choice from
cardinality `single`; else (3) essay. -/
def determineQuestionTypeSpec (doc : QuestionTypeDoc) : QuestionType :=
  match doc.type_field with
  | some txt =>
    match questionTypeTable (lowerStr txt) with
    | some t => t
    | none => .essay
  | none =>
    match doc.response_cardinality with
    | some card? =>
      match card?.getD "single" with
      | "multiple" => .multipleAnswers
      | "single" => .multipleChoice
      | _ => .essay
    | none => .essay

/-! ## Derived definitions used by the verification statements -/

/-- The per-page matching predicate of `_find_page`: identifier match,
or case-insensitive separator-normalized substring match. -/
def pageMatches (item : CanvasModuleItem) (p : CanvasPage) : Bool :=
  decide (item.identifier = some p.identifier)
  || (truthyStr item.content_file && truthyStr p.source_file
      && containsSub (normPath ((p.source_file).getD ""))
           (normPath ((item.content_file).getD "")))

/-- The per-quiz matching predicate of `_find_quiz`: identifier match,
or raw substring match. -/
def quizMatches (item : CanvasModuleItem) (q : CanvasQuiz) : Bool :=
  decide (item.identifier = some q.identifier)
  || (truthyStr item.content_file && truthyStr q.source_file
      && containsSub ((q.source_file).getD "") ((item.content_file).getD ""))

/-- The per-assignment matching predicate of `_find_assignment`:
identifier match, or raw substring match. -/
def assignmentMatches (item : CanvasModuleItem) (a : CanvasAssignment) : Bool :=
  decide (item.identifier = some a.identifier)
  || (truthyStr item.content_file && truthyStr a.source_file
      && containsSub ((a.source_file).getD "") ((item.content_file).getD ""))

/-- Modelled from the claim (C3): the uniform matching the claim
describes for quizzes — case-insensitive, path-separator-normalized
substring comparison, as `_find_page` does it. -/
def claimQuizMatches (item : CanvasModuleItem) (q : CanvasQuiz) : Bool :=
  decide (item.identifier = some q.identifier)
  || (truthyStr item.content_file && truthyStr q.source_file
      && containsSub (normPath ((q.source_file).getD ""))
           (normPath ((item.content_file).getD "")))

/-- The number of questions of a list whose source type has no mapping
entry (`QUESTION_TYPE_MAPPING.get` returns `None`). -/
def skippedCount (qs : List CanvasQuestion) : Nat :=
  qs.countP (fun q => (QUESTION_TYPE_MAPPING q.question_type.value).isNone)

/-- Diagnostics recorded for a skipped question: warning severity with
kind `UNSUPPORTED_QUESTION_TYPE`. -/
def isUnsupportedWarning (e : MigrationError) : Bool :=
  decide (e.severity = .warning) && decide (e.error_type = "UNSUPPORTED_QUESTION_TYPE")

/-- The assignments that the items of one module resolve to, in item
order: each item with `content_type = 'assignment'` contributes its
`_find_assignment` result (when found). -/
def foundInItems (course : CanvasCourse) (items : List CanvasModuleItem) :
    List CanvasAssignment :=
  items.filterMap (fun item =>
    if item.content_type = some "assignment" then findAssignment course item else none)

/-- The assignments that some module item resolves to, in traversal
order. -/
def moduleFoundAssignments (course : CanvasCourse) : List CanvasAssignment :=
  course.modules.flatMap (fun m => foundInItems course m.items)

/-- The assignments that land in the synthetic "Assignments" topic:
those whose identifier no module item processed. -/
def orphanedAssignments (course : CanvasCourse) : List CanvasAssignment :=
  course.assignments.filter (fun a =>
    !(((moduleFoundAssignments course).map (fun b => b.identifier)).contains a.identifier))

/-- The number of output assignments across all topics that carry the
source identifier `x`. -/
def assignmentIdCount (tc : TutorCourse) (x : String) : Nat :=
  ((tc.topics.map (fun t => t.assignments.map (fun ta => ta.source_canvas_id))).flatten).count
    (some x)

/-! ## Concrete inputs for the counterexamples and witnesses -/

/-- C1 input: the page shape the orphan reconciler produces for a
recovered file, merged into `course.pages` by `Parser.parse`. -/
def c1OrphanPage : CanvasPage where
  title := "Recovered Page"
  identifier := "orphaned_slide1"
  body := "<p>Recovered body content</p>"
  workflow_state := .active
  source_file := some "slide1.xml"

/-- C1 input: an export with no organization section (no modules) and
one recovered orphan page. -/
def c1Course : CanvasCourse where
  title := "Empty Org Course"
  identifier := some "course1"
  modules := []
  pages := [c1OrphanPage]
  assignments := []
  quizzes := []
  resources := []
  workflow_state := .active

/-- C2 input: a manifest resource map with one declared resource whose
href names an existing file. -/
def c2Resources : List (String × CanvasResource) :=
  [("res1",
    { identifier := "res1", href := some "wiki_content/intro.xml",
      type := some "webcontent", file_exists := true })]

/-- C3 input: a quiz whose source location differs from the declared
content file only in letter case. -/
def c3Quiz : CanvasQuiz where
  title := "Quiz 1"
  identifier := "quiz_res_1"
  description := ""
  points_possible := 0
  time_limit := none
  allowed_attempts := 1
  questions := []
  workflow_state := .active
  source_file := some "quiz1/assessment_meta.xml"

/-- C3 input: a module item declaring the quiz content file in upper
case. -/
def c3Item : CanvasModuleItem where
  title := "Quiz item"
  identifier := some "item_77"
  content_type := some "quiz"
  content_file := some "QUIZ1/assessment_meta.xml"
  position := some 0
  workflow_state := .active

/-- C3 input: the course holding `c3Quiz`. -/
def c3Course : CanvasCourse where
  title := "C3 Course"
  identifier := some "course3"
  modules := []
  pages := []
  assignments := []
  quizzes := [c3Quiz]
  resources := []
  workflow_state := .active

/-- C5 input: a multiple-choice question with answer weights 0, 50 and
100. -/
def c5Question : CanvasQuestion where
  identifier := "q1"
  title := "Question"
  question_type := .multipleChoice
  question_text := "Pick one"
  points_possible := 1
  answers := [⟨"a1", "Alpha", 0⟩, ⟨"a2", "Beta", 50⟩, ⟨"a3", "Gamma", 100⟩]
  source_file := some "quiz1/q1.xml"

/-- C5: the Tutor question that `transformQuestion` produces for
`c5Question` (total-function projection of the `some` result). -/
def c5OutQuestion : TutorQuestion :=
  match (transformQuestion initialTransformerState c5Question 0).2 with
  | some tq => tq
  | none =>
    { question_title := "", question_description := "", question_type := .openEnded,
      question_mark := 0, answers := [], question_order := 0, source_canvas_id := none }

/-- C7 input: an assignment parsed from disk. -/
def c7Assignment : CanvasAssignment where
  title := "Homework 1"
  identifier := "asg1"
  description := "Do the homework"
  points_possible := 10
  grading_type := "points"
  workflow_state := .active
  source_file := some "asg1/assignment_settings.xml"

/-- C7 input: a module item resolving to `c7Assignment` by identifier. -/
def c7ItemA : CanvasModuleItem where
  title := "Homework 1"
  identifier := some "asg1"
  content_type := some "assignment"
  content_file := some "asg1/homework.html"
  position := some 0
  workflow_state := .active

/-- C7 input: a second module item resolving to the same assignment. -/
def c7ItemB : CanvasModuleItem where
  title := "Homework 1 again"
  identifier := some "asg1"
  content_type := some "assignment"
  content_file := some "asg1/homework.html"
  position := some 1
  workflow_state := .active

/-- C7 input: the module listing the assignment twice. -/
def c7Module : CanvasModule where
  title := "Module 1"
  identifier := some "mod1"
  position := 1
  items := [c7ItemA, c7ItemB]
  workflow_state := .active

/-- C7 input: the course with one assignment reached by two module
items. -/
def c7Course : CanvasCourse where
  title := "C7 Course"
  identifier := some "course7"
  modules := [c7Module]
  pages := []
  assignments := [c7Assignment]
  quizzes := []
  resources := []
  workflow_state := .active

/-- C7 witness input: one module item matching one of two assignments;
the other stays loose. -/
def c7wItem : CanvasModuleItem where
  title := "Homework 1"
  identifier := some "asg1"
  content_type := some "assignment"
  content_file := some "asg1/homework.html"
  position := some 0
  workflow_state := .active

/-- C7 witness input: the loose assignment never referenced by a
module. -/
def c7wLoose : CanvasAssignment where
  title := "Homework 2"
  identifier := "asg2"
  description := ""
  points_possible := 5
  grading_type := "points"
  workflow_state := .active
  source_file := some "asg2/assignment_settings.xml"

/-- C7 witness input: the course for the amended-claim witness. -/
def c7wCourse : CanvasCourse where
  title := "C7 Witness Course"
  identifier := some "course7w"
  modules := [{ title := "Module 1", identifier := some "mod1", position := 1,
                items := [c7wItem], workflow_state := .active }]
  pages := []
  assignments := [c7Assignment, c7wLoose]
  quizzes := []
  resources := []
  workflow_state := .active

/-- C8 input: a child item of the wrapper. -/
def c8Child : OrgItem := .mk (some "Module 1") (some "m1") none []

/-- C8 input: a single top-level item *bound to a resource* and having
one child. -/
def c8Wrapper : OrgItem := .mk (some "Wrapper") (some "w1") (some "r1") [c8Child]

/-- C8 input: the resource map binding the wrapper's `identifierref`. -/
def c8Resources : List (String × CanvasResource) :=
  [("r1",
    { identifier := "r1", href := some "wiki_content/wrapper.xml",
      type := some "webcontent", file_exists := true })]

/-- C10 witness input: an assignment worth 0 points. -/
def c10ZeroAssignment : CanvasAssignment where
  title := "Ungraded"
  identifier := "asg0"
  description := ""
  points_possible := 0
  grading_type := "not_graded"
  workflow_state := .active
  source_file := none

/-! ## C1 — recovered orphan content in the output tree

The spec requires a synthetic "Recovered Content" topic holding every
successfully parsed orphan entity, appended as the last top-level node
(`src/stages/parser.py` announces exactly that in its step-5 comment).
`Parser.parse` merely extends `course.pages` with the recovered pages,
and `CourseTransformer.transform` only emits pages reachable from a
module item, so a recovered orphan page reaches no topic at all. -/

/-- C1: code-bug demonstration.  For the export of the spec's
end-to-end scenario — no organization section, one recovered
orphan page — the transformed course has *no* topics: there is no
"Recovered Content" container and the recovered page is absent from the
output tree, contradicting the claim. -/
theorem c1_orphan_page_dropped :
    (transform c1Course).1.topics = []
    ∧ ((transform c1Course).1.topics.map (fun t => t.topic_title)).contains
        "Recovered Content" = false := by decide

/-! ## C2 — the orphan classification predicate

`OrphanedContentHandler.find_orphaned_xml_files` checks the relative
path against the referenced set it is handed; but `Parser.parse`
(line 133) hands it `set(course.resources.keys())` — the resource
*identifiers* — although lines 86-89 had just computed the declared
href set "for orphan check later".  Separately, the handler excludes
only paths containing `'tutor_lms_output'`, while
`MigrationPipeline.__init__` defaults the output directory to
`lms_output`. -/

/-- C2: code-bug demonstration.  A file declared by the manifest
(resource `res1` with href `wiki_content/intro.xml`) *is* flagged
orphaned under the referenced set the pipeline actually passes (the
resource ids), and would not have been under the declared-href set the
claim describes; and a file under the pipeline's default output
directory `lms_output` is *not* excluded. -/
theorem c2_orphan_classification_bug :
    declaredHrefs c2Resources = ["wiki_content/intro.xml"]
    ∧ findOrphanedXmlFiles "export" ["wiki_content/intro.xml"]
        (parserReferencedFiles c2Resources) = ["wiki_content/intro.xml"]
    ∧ findOrphanedXmlFiles "export" ["wiki_content/intro.xml"]
        (declaredHrefs c2Resources) = []
    ∧ findOrphanedXmlFiles "export" [defaultOutputDirName ++ "/old.xml"]
        (declaredHrefs c2Resources) = [defaultOutputDirName ++ "/old.xml"] := by decide

/-! ## C3 — the resolver's two-strategy matching -/

/-- C3: counterexample.  The claimed case-insensitive,
separator-normalized substring strategy does *not* apply to quizzes:
`_find_quiz` fails on a case difference that the claimed strategy (and
`_find_page`) would match. -/
theorem c3_uniform_matching_counterexample :
    findQuiz c3Course c3Item = none
    ∧ c3Course.quizzes.find? (claimQuizMatches c3Item) = some c3Quiz := by decide

/-- The `_find_page` loop is first-match search with `pageMatches`. -/
lemma findPageAux_eq (item : CanvasModuleItem) (l : List CanvasPage) :
    findPageAux item l = l.find? (pageMatches item) := by
  induction l with
  | nil => rfl
  | cons p rest ih =>
    unfold findPageAux
    rw [List.find?_cons]
    by_cases h1 : item.identifier = some p.identifier
    · simp [pageMatches, h1]
    · by_cases h2 : (truthyStr item.content_file && truthyStr p.source_file
          && containsSub (normPath ((p.source_file).getD ""))
               (normPath ((item.content_file).getD ""))) = true
      · simp [pageMatches, h1, h2]
      · have h2f : (truthyStr item.content_file && truthyStr p.source_file
            && containsSub (normPath ((p.source_file).getD ""))
                 (normPath ((item.content_file).getD ""))) = false := by
          revert h2
          cases (truthyStr item.content_file && truthyStr p.source_file
            && containsSub (normPath ((p.source_file).getD ""))
                 (normPath ((item.content_file).getD ""))) <;> simp
        simp [pageMatches, h1, h2f, ih]

/-- The `_find_quiz` loop is first-match search with `quizMatches`. -/
lemma findQuizAux_eq (item : CanvasModuleItem) (l : List CanvasQuiz) :
    findQuizAux item l = l.find? (quizMatches item) := by
  induction l with
  | nil => rfl
  | cons q rest ih =>
    unfold findQuizAux
    rw [List.find?_cons]
    by_cases h1 : item.identifier = some q.identifier
    · simp [quizMatches, h1]
    · by_cases h2 : (truthyStr item.content_file && truthyStr q.source_file
          && containsSub ((q.source_file).getD "") ((item.content_file).getD "")) = true
      · simp [quizMatches, h1, h2]
      · have h2f : (truthyStr item.content_file && truthyStr q.source_file
            && containsSub ((q.source_file).getD "") ((item.content_file).getD "")) = false := by
          revert h2
          cases (truthyStr item.content_file && truthyStr q.source_file
            && containsSub ((q.source_file).getD "") ((item.content_file).getD "")) <;> simp
        simp [quizMatches, h1, h2f, ih]

/-- The `_find_assignment` loop is first-match search with
`assignmentMatches`. -/
lemma findAssignmentAux_eq (item : CanvasModuleItem) (l : List CanvasAssignment) :
    findAssignmentAux item l = l.find? (assignmentMatches item) := by
  induction l with
  | nil => rfl
  | cons a rest ih =>
    unfold findAssignmentAux
    rw [List.find?_cons]
    by_cases h1 : item.identifier = some a.identifier
    · simp [assignmentMatches, h1]
    · by_cases h2 : (truthyStr item.content_file && truthyStr a.source_file
          && containsSub ((a.source_file).getD "") ((item.content_file).getD "")) = true
      · simp [assignmentMatches, h1, h2]
      · have h2f : (truthyStr item.content_file && truthyStr a.source_file
            && containsSub ((a.source_file).getD "") ((item.content_file).getD "")) = false := by
          revert h2
          cases (truthyStr item.content_file && truthyStr a.source_file
            && containsSub ((a.source_file).getD "") ((item.content_file).getD "")) <;> simp
        simp [assignmentMatches, h1, h2f, ih]

/-- C3 (amended): each resolver is first-match search over the parsed
collection, trying identifier equality then a substring comparison —
but the substring comparison is case-insensitive and
separator-normalized only for pages (`pageMatches`); for quizzes and
assignments (`quizMatches`, `assignmentMatches`) it is a raw
case-sensitive substring test. -/
theorem c3_resolver_first_match (course : CanvasCourse) (item : CanvasModuleItem) :
    findPage course item = course.pages.find? (pageMatches item)
    ∧ findQuiz course item = course.quizzes.find? (quizMatches item)
    ∧ findAssignment course item = course.assignments.find? (assignmentMatches item) :=
  ⟨findPageAux_eq item course.pages, findQuizAux_eq item course.quizzes,
   findAssignmentAux_eq item course.assignments⟩

/-! ## C4 — unmapped question types: skip, warn, histogram -/

/-- Reading a bumped counter. -/
lemma incCount_apply (f : String → Nat) (k t : String) :
    incCount f k t = f t + (if k = t then 1 else 0) := by
  unfold incCount
  by_cases h : t = k
  · subst h; simp
  · rw [if_neg h, if_neg (fun hk => h hk.symm)]; simp

/-- One `_transform_question` call: the histogram counter of the
question's own source type is bumped by exactly one (all others
untouched), an `UNSUPPORTED_QUESTION_TYPE` warning is recorded exactly
when the mapping has no entry, the result is `none` exactly in that
case, and the processed-assignment set is untouched. -/
lemma transformQuestion_state (s : TransformerState) (q : CanvasQuestion) (order : Nat) :
    ((transformQuestion s q order).1.errors.countP isUnsupportedWarning
        = s.errors.countP isUnsupportedWarning
          + (if (QUESTION_TYPE_MAPPING q.question_type.value).isNone then 1 else 0))
    ∧ ((transformQuestion s q order).2.isSome
        = !(QUESTION_TYPE_MAPPING q.question_type.value).isNone)
    ∧ (∀ t, (transformQuestion s q order).1.question_type_counts t
        = s.question_type_counts t + (if q.question_type.value = t then 1 else 0))
    ∧ ((transformQuestion s q order).1.processed_assignments = s.processed_assignments) := by
  cases hm : QUESTION_TYPE_MAPPING q.question_type.value with
  | none =>
    refine ⟨?_, ?_, ?_, ?_⟩ <;>
      simp [transformQuestion, hm, List.countP_append, List.countP_cons,
        isUnsupportedWarning, incCount_apply]
  | some ts =>
    cases ht : tutorQuestionTypeOfString ts with
    | some t =>
      refine ⟨?_, ?_, ?_, ?_⟩ <;>
        simp [transformQuestion, hm, ht, List.countP_append, List.countP_cons,
          isUnsupportedWarning, incCount_apply]
    | none =>
      refine ⟨?_, ?_, ?_, ?_⟩ <;>
        simp [transformQuestion, hm, ht, List.countP_append, List.countP_cons,
          isUnsupportedWarning, incCount_apply]

/-- The question loop, for any starting state: output length plus
skipped count equals source count; one unsupported-type warning per
skipped question; the histogram grows by the per-type multiplicities. -/
lemma transformQuestions_spec (qs : List CanvasQuestion) :
    ∀ (s : TransformerState) (pos : Nat),
    ((transformQuestions s qs pos).2.length + skippedCount qs = qs.length)
    ∧ ((transformQuestions s qs pos).1.errors.countP isUnsupportedWarning
        = s.errors.countP isUnsupportedWarning + skippedCount qs)
    ∧ (∀ t, (transformQuestions s qs pos).1.question_type_counts t
        = s.question_type_counts t + qs.countP (fun q => decide (q.question_type.value = t)))
    ∧ ((transformQuestions s qs pos).1.processed_assignments = s.processed_assignments) := by
  induction qs with
  | nil => intro s pos; refine ⟨?_, ?_, ?_, ?_⟩ <;> simp [transformQuestions, skippedCount]
  | cons q rest ih =>
    intro s pos
    obtain ⟨hq1, hq2, hq3, hq4⟩ := transformQuestion_state s q pos
    rcases hstep : transformQuestion s q pos with ⟨s1, tq?⟩
    rw [hstep] at hq1 hq2 hq3 hq4
    dsimp only at hq1 hq2 hq3 hq4
    obtain ⟨hr1, hr2, hr3, hr4⟩ := ih s1 (pos + 1)
    rcases hrec : transformQuestions s1 rest (pos + 1) with ⟨s2, out⟩
    rw [hrec] at hr1 hr2 hr3 hr4
    dsimp only at hr1 hr2 hr3 hr4
    have hmain : transformQuestions s (q :: rest) pos
        = (s2, match tq? with | some tq => tq :: out | none => out) := by
      cases tq? <;> simp [transformQuestions, hstep, hrec]
    rw [hmain]
    cases tq? with
    | some tq =>
      have hnone : (QUESTION_TYPE_MAPPING q.question_type.value).isNone = false := by
        cases hx : (QUESTION_TYPE_MAPPING q.question_type.value).isNone
        · rfl
        · rw [hx] at hq2; simp at hq2
      rw [hnone] at hq1
      simp only [Bool.false_eq_true, if_false, Nat.add_zero] at hq1
      have hskip : skippedCount (q :: rest) = skippedCount rest := by
        simp [skippedCount, List.countP_cons, hnone]
      refine ⟨?_, ?_, ?_, ?_⟩
      · dsimp only; rw [hskip]; simp only [List.length_cons]; omega
      · dsimp only; rw [hr2, hq1, hskip]
      · intro t
        dsimp only
        rw [hr3 t, hq3 t]
        simp only [List.countP_cons]
        by_cases hqt : q.question_type.value = t
        · simp [hqt]; omega
        · simp [hqt]
      · dsimp only; rw [hr4, hq4]
    | none =>
      have hnone : (QUESTION_TYPE_MAPPING q.question_type.value).isNone = true := by
        cases hx : (QUESTION_TYPE_MAPPING q.question_type.value).isNone
        · rw [hx] at hq2; simp at hq2
        · rfl
      rw [hnone] at hq1
      simp only [if_true] at hq1
      have hskip : skippedCount (q :: rest) = skippedCount rest + 1 := by
        simp [skippedCount, List.countP_cons, hnone]
      refine ⟨?_, ?_, ?_, ?_⟩
      · dsimp only; rw [hskip]; simp only [List.length_cons]; omega
      · dsimp only; rw [hr2, hq1, hskip]; omega
      · intro t
        dsimp only
        rw [hr3 t, hq3 t]
        simp only [List.countP_cons]
        by_cases hqt : q.question_type.value = t
        · simp [hqt]; omega
        · simp [hqt]
      · dsimp only; rw [hr4, hq4]

/-- C4: for every quiz and transformer state, the output question count
equals the source count minus the number of questions whose source type
has no mapping entry; exactly one warning-severity
`UNSUPPORTED_QUESTION_TYPE` diagnostic is recorded per skipped
question; and every question bumps the source-type histogram counter of
its type exactly once, whether mapped, fallback-mapped or skipped. -/
theorem c4_type_mapping (s : TransformerState) (quiz : CanvasQuiz) (order : Nat) :
    ((transformQuiz s quiz order).2.questions.length
        = quiz.questions.length - skippedCount quiz.questions)
    ∧ ((transformQuiz s quiz order).1.errors.countP isUnsupportedWarning
        = s.errors.countP isUnsupportedWarning + skippedCount quiz.questions)
    ∧ (∀ t, (transformQuiz s quiz order).1.question_type_counts t
        = s.question_type_counts t
          + quiz.questions.countP (fun q => decide (q.question_type.value = t))) := by
  obtain ⟨h1, h2, h3, _⟩ := transformQuestions_spec quiz.questions s 0
  have e1 : (transformQuiz s quiz order).1 = (transformQuestions s quiz.questions 0).1 := rfl
  have e2 : (transformQuiz s quiz order).2.questions
      = (transformQuestions s quiz.questions 0).2 := rfl
  rw [e1, e2]
  exact ⟨by omega, h2, h3⟩

/-! ## C7 — assignment deduplication -/

/-- C7: counterexample.  One parsed assignment reached by two module
items is emitted twice in the output course (both copies inside the
single module topic), so an assignment identifier is *not* always
emitted exactly once. -/
theorem c7_exactly_once_counterexample :
    assignmentIdCount (transform c7Course).1 "asg1" = 2
    ∧ (transform c7Course).1.topics.length = 1 := by decide

/-! ## C8 — wrapper flattening in organization parsing -/

/-- C8: counterexample.  A single top-level item *bound to a resource*
(`identifierref = "r1"`, present in the resource map) but having a
child is still flattened to its children — `_parse_organization` never
consults the resource binding. -/
theorem c8_flattening_counterexample :
    parseOrganization c8Resources [c8Wrapper] = [parseModuleItem c8Resources c8Child 0]
    ∧ parseOrganization c8Resources [c8Wrapper] ≠ [parseModuleItem c8Resources c8Wrapper 0] := by
  decide

/-- C8 (amended): the single top-level item is flattened to its
children precisely when it has children, regardless of any bound
resource; a single childless item, or several top-level items, are
parsed as they stand. -/
theorem c8_wrapper_flattening (resources : List (String × CanvasResource))
    (it : OrgItem) (items : List OrgItem) :
    (it.children ≠ [] →
      parseOrganization resources [it] = parseModuleItemList resources it.children 0)
    ∧ (it.children = [] →
      parseOrganization resources [it] = [parseModuleItem resources it 0])
    ∧ (items.length ≠ 1 →
      parseOrganization resources items = parseModuleItemList resources items 0) := by
  refine ⟨?_, ?_, ?_⟩
  · intro h
    show parseModuleItemList resources
        (if it.children.isEmpty = true then [it] else it.children) 0
      = parseModuleItemList resources it.children 0
    rw [if_neg (fun hc => h (List.isEmpty_iff.mp hc))]
  · intro h
    show parseModuleItemList resources
        (if it.children.isEmpty = true then [it] else it.children) 0
      = [parseModuleItem resources it 0]
    rw [if_pos (List.isEmpty_iff.mpr h)]
    rfl
  · intro h
    match items with
    | [] => rfl
    | [a] => exact absurd rfl h
    | a :: b :: rest => rfl

/-- C8 witness: a resource-bound wrapper with one child is flattened. -/
theorem c8_wrapper_flattening_witness :
    parseOrganization c8Resources [c8Wrapper] = parseModuleItemList c8Resources c8Wrapper.children 0 :=
  (c8_wrapper_flattening c8Resources c8Wrapper []).1 (List.cons_ne_nil _ _)

/-! ## C9 — raw and percent-encoded placeholder rewriting -/

/-- C9: counterexample.  For the asset path
`p = %24IMS-CC-FILEBASE%24/x` (admissible for the capture class), the
raw form rewrites to `../../assets/../../assets/x` while the
percent-encoded form rewrites to `../../assets/%24IMS-CC-FILEBASE%24/x`
— not the identical target path. -/
theorem c9_rewrite_counterexample :
    rewriteCanvasAssetPaths "$IMS-CC-FILEBASE$/%24IMS-CC-FILEBASE%24/x" assetsBase
        = "../../assets/../../assets/x"
    ∧ rewriteCanvasAssetPaths "%24IMS-CC-FILEBASE%24/%24IMS-CC-FILEBASE%24/x" assetsBase
        = "../../assets/%24IMS-CC-FILEBASE%24/x" := by decide

/-- A substitution pass over the empty content is empty. -/
lemma subFilebaseAux_nil (tok base : List Char) (n : Nat) :
    subFilebaseAux tok base n [] = [] := by cases n <;> rfl

/-- A substitution pass over content with no token occurrence is the
identity, whatever the fuel. -/
lemma subFilebaseAux_no_match (tok base : List Char) :
    ∀ (n : Nat) (l : List Char), (∀ i, matchesAt tok l i = false) →
      subFilebaseAux tok base n l = l := by
  intro n
  induction n with
  | zero => intro l _; rfl
  | succ m ih =>
    intro l h
    cases l with
    | nil => rfl
    | cons c rest =>
      have h0 := h 0
      unfold matchesAt at h0
      simp only [List.drop_zero] at h0
      unfold subFilebaseAux
      rw [if_neg (by simp [h0])]
      congr 1
      apply ih
      intro i
      have hi := h (i + 1)
      unfold matchesAt at hi ⊢
      simpa [List.drop_succ_cons] using hi

/-- A failed substring search means no offset matches. -/
lemma matchesAt_false_of_no_contains (tok l : List Char) (hne : tok ≠ [])
    (h : containsChars l tok = false) : ∀ i, matchesAt tok l i = false := by
  intro i
  by_cases hi : i ≤ l.length
  · have hmem : i ∈ List.range (l.length + 1) := List.mem_range.mpr (by omega)
    have hall := List.any_eq_false.mp h
    have := hall i hmem
    revert this
    cases matchesAt tok l i <;> simp
  · have hdrop : l.drop i = [] := List.drop_eq_nil_of_le (by omega)
    unfold matchesAt
    rw [hdrop]
    cases tok with
    | nil => exact absurd rfl hne
    | cons t ts => rfl

/-- A pass over `tok ++ p`, with `p` a nonempty run of admissible
characters, fires at offset 0, captures all of `p` greedily, and
substitutes `base ++ p`. -/
lemma subFilebase_token_head (tok base p : List Char) (htok : tok ≠ [])
    (hp : p ≠ []) (hall : ∀ c ∈ p, allowedAssetChar c = true) :
    subFilebase tok base (tok ++ p) = base ++ p := by
  unfold subFilebase
  cases tok with
  | nil => exact absurd rfl htok
  | cons t ts =>
    show subFilebaseAux (t :: ts) base (((t :: ts) ++ p).length) ((t :: ts) ++ p) = base ++ p
    have hlen : ((t :: ts) ++ p).length = (ts ++ p).length + 1 := by simp
    rw [hlen]
    show subFilebaseAux (t :: ts) base ((ts ++ p).length + 1) (t :: (ts ++ p)) = base ++ p
    unfold subFilebaseAux
    rw [if_pos ?hpre]
    case hpre =>
      have : (t :: ts) <+: (t :: ts) ++ p := List.prefix_append _ _
      exact List.isPrefixOf_iff_prefix.mpr this
    have hdrop : (t :: (ts ++ p)).drop (t :: ts).length = p := by
      show ((t :: ts) ++ p).drop (t :: ts).length = p
      exact List.drop_left _ _
    rw [hdrop]
    have hrun : p.takeWhile allowedAssetChar = p := by
      apply List.takeWhile_eq_self_iff.mpr
      exact hall
    dsimp only
    rw [hrun, if_neg (by simp [List.isEmpty_iff, hp]), List.drop_length,
      subFilebaseAux_nil, List.append_nil]

/-- A token starting with a character absent from `a` and without
occurrence in `p` has no occurrence in `a ++ p` (no straddling
occurrence can start inside `a`). -/
lemma matchesAt_append_false (t : Char) (ts a p : List Char)
    (ha : t ∉ a) (hp : ∀ i, matchesAt (t :: ts) p i = false) :
    ∀ i, matchesAt (t :: ts) (a ++ p) i = false := by
  intro i
  by_cases hi : i < a.length
  · unfold matchesAt
    rw [List.drop_append_eq_append_drop]
    have h0 : i - a.length = 0 := by omega
    rw [h0, List.drop_zero]
    obtain ⟨d, tl, hd⟩ : ∃ d tl, a.drop i = d :: tl := by
      cases hcase : a.drop i with
      | nil =>
        exfalso
        have := List.length_drop i a
        rw [hcase] at this
        simp at this
        omega
      | cons d tl => exact ⟨d, tl, rfl⟩
    rw [hd]
    show ((t == d) && ts.isPrefixOf (tl ++ p)) = false
    have hdm : d ∈ a := List.drop_subset i a (hd ▸ List.mem_cons_self d tl)
    have htd : (t == d) = false := by
      apply beq_eq_false_iff_ne.mpr
      intro hEq
      exact ha (hEq ▸ hdm)
    rw [htd, Bool.false_and]
  · have hsplit : i = a.length + (i - a.length) := by omega
    unfold matchesAt
    rw [hsplit, List.drop_append]
    exact hp (i - a.length)

/-- The raw token is nonempty. -/
lemma rawToken_ne_nil : rawToken ≠ [] := by decide

/-- The percent-encoded token is nonempty. -/
lemma pctToken_ne_nil : pctToken ≠ [] := by decide

/-- C9 (amended): for every nonempty asset path `p` of characters
admissible for the capture class that contains no occurrence of either
placeholder token, and any base path without a `%` character, the raw
form `$IMS-CC-FILEBASE$/p` and the percent-encoded form
`%24IMS-CC-FILEBASE%24/p` both rewrite to exactly the base path
followed by `p` — the identical target path. -/
theorem c9_rewrite_agreement (base p : List Char) (hp : p ≠ [])
    (hall : ∀ c ∈ p, allowedAssetChar c = true)
    (hraw : containsChars p rawToken = false)
    (hpct : containsChars p pctToken = false)
    (hbase : '%' ∉ base) :
    rewriteCanvasAssetPaths ⟨rawToken ++ p⟩ ⟨base⟩ = ⟨base ++ p⟩
    ∧ rewriteCanvasAssetPaths ⟨pctToken ++ p⟩ ⟨base⟩ = ⟨base ++ p⟩ := by
  have hpnomatch_raw : ∀ i, matchesAt rawToken p i = false :=
    matchesAt_false_of_no_contains rawToken p rawToken_ne_nil hraw
  have hpnomatch_pct : ∀ i, matchesAt pctToken p i = false :=
    matchesAt_false_of_no_contains pctToken p pctToken_ne_nil hpct
  constructor
  · have hne : (⟨rawToken ++ p⟩ : String) ≠ "" := by
      intro hcon
      have : rawToken ++ p = [] := congrArg String.data hcon
      simp [rawToken] at this
    unfold rewriteCanvasAssetPaths
    rw [if_neg hne]
    have hstep1 : subFilebase rawToken (⟨base⟩ : String).data (⟨rawToken ++ p⟩ : String).data
        = base ++ p := by
      show subFilebase rawToken base (rawToken ++ p) = base ++ p
      exact subFilebase_token_head rawToken base p rawToken_ne_nil hp hall
    rw [hstep1]
    have hnm : ∀ i, matchesAt pctToken (base ++ p) i = false :=
      matchesAt_append_false '%' (pctToken.drop 1) base p hbase hpnomatch_pct
    show (⟨subFilebase pctToken base (base ++ p)⟩ : String) = ⟨base ++ p⟩
    rw [subFilebase, subFilebaseAux_no_match pctToken base _ _ hnm]
  · have hne : (⟨pctToken ++ p⟩ : String) ≠ "" := by
      intro hcon
      have : pctToken ++ p = [] := congrArg String.data hcon
      simp [pctToken] at this
    unfold rewriteCanvasAssetPaths
    rw [if_neg hne]
    have hdollar : '$' ∉ pctToken := by decide
    have hnm : ∀ i, matchesAt rawToken (pctToken ++ p) i = false :=
      matchesAt_append_false '$' (rawToken.drop 1) pctToken p hdollar hpnomatch_raw
    have hstep1 : subFilebase rawToken (⟨base⟩ : String).data (⟨pctToken ++ p⟩ : String).data
        = pctToken ++ p := by
      show subFilebase rawToken base (pctToken ++ p) = pctToken ++ p
      rw [subFilebase, subFilebaseAux_no_match rawToken base _ _ hnm]
    rw [hstep1]
    show (⟨subFilebase pctToken base (pctToken ++ p)⟩ : String) = ⟨base ++ p⟩
    rw [subFilebase_token_head pctToken base p pctToken_ne_nil hp hall]

/-- C9 witness: both placeholder forms of `images/logo.png` rewrite to
`../../assets/images/logo.png`. -/
theorem c9_rewrite_agreement_witness :
    rewriteCanvasAssetPaths ⟨rawToken ++ "images/logo.png".data⟩ ⟨assetsBase.data⟩
        = ⟨assetsBase.data ++ "images/logo.png".data⟩
    ∧ rewriteCanvasAssetPaths ⟨pctToken ++ "images/logo.png".data⟩ ⟨assetsBase.data⟩
        = ⟨assetsBase.data ++ "images/logo.png".data⟩ :=
  c9_rewrite_agreement assetsBase.data "images/logo.png".data (by decide) (by decide)
    (by decide) (by decide) (by decide)

/-! ## C10 — assignment pass mark -/

/-- C10: for every transformed assignment, `total_mark` equals the
source `points_possible` and `pass_mark` equals 60% of it, for any
grading type and any transformer state; in particular 0 points gives
pass mark 0. -/
theorem c10_assignment_marks (s : TransformerState) (a : CanvasAssignment) (order : Nat) :
    (transformAssignment s a order).2.assignment_option.total_mark = a.points_possible
    ∧ (transformAssignment s a order).2.assignment_option.pass_mark
        = (6 / 10 : ℚ) * a.points_possible
    ∧ (a.points_possible = 0 →
        (transformAssignment s a order).2.assignment_option.pass_mark = 0) := by
  refine ⟨rfl, mul_comm _ _, fun h => ?_⟩
  show a.points_possible * (6 / 10 : ℚ) = 0
  rw [h, zero_mul]

/-- C10 witness: a 0-point assignment gets pass mark 0. -/
theorem c10_assignment_marks_witness :
    (transformAssignment initialTransformerState c10ZeroAssignment 0).2.assignment_option.pass_mark
      = 0 :=
  (c10_assignment_marks initialTransformerState c10ZeroAssignment 0).2.2 rfl

/-! ## C5 — answer correctness mapping -/

/-- Mapping a function over the second components of an enumerated list
is mapping it over the list. -/
lemma map_snd_enumFrom {β : Type} (g : CanvasQuestionAnswer → β) (l : List CanvasQuestionAnswer) :
    ∀ n, (List.enumFrom n l).map (fun p => g p.2) = l.map g := by
  induction l with
  | nil => intro n; rfl
  | cons a rest ih => intro n; simp only [List.enumFrom, List.map]; rw [ih]

/-- C5: for every transformed question, the output `is_correct` flags
are exactly the tests `weight ≥ 100` on the source answers, in order —
true iff the source answer weight is at least 100. -/
theorem c5_is_correct (s : TransformerState) (q : CanvasQuestion) (order : Nat)
    (tq : TutorQuestion) (h : (transformQuestion s q order).2 = some tq) :
    tq.answers.map (fun a => a.is_correct)
      = q.answers.map (fun a => decide ((100 : ℚ) ≤ a.weight)) := by
  cases hm : QUESTION_TYPE_MAPPING q.question_type.value with
  | none => simp [transformQuestion, hm] at h
  | some ts =>
    cases ht : tutorQuestionTypeOfString ts with
    | some t =>
      simp only [transformQuestion, hm, ht, Option.some.injEq] at h
      subst h
      rw [List.map_map]
      exact map_snd_enumFrom (fun a => decide ((100 : ℚ) ≤ a.weight)) q.answers 0
    | none =>
      simp only [transformQuestion, hm, ht, Option.some.injEq] at h
      subst h
      rw [List.map_map]
      exact map_snd_enumFrom (fun a => decide ((100 : ℚ) ≤ a.weight)) q.answers 0

/-- C5 witness: source weights 0, 50, 100 map to `is_correct` flags
false, false, true. -/
theorem c5_is_correct_witness :
    c5OutQuestion.answers.map (fun a => a.is_correct) = [false, false, true] := by
  have h := c5_is_correct initialTransformerState c5Question 0 c5OutQuestion rfl
  rw [h]
  decide

/-! ## C6 — question-type determination -/

/-- C6: `QuestionParser._determine_question_type` implements exactly
the three-step policy the spec words: explicit type field through the
fixed table with essay default; else cardinality inference (`multiple`
→ multiple-answer, `single` → multiple-choice); else essay. -/
theorem c6_question_type_policy (doc : QuestionTypeDoc) :
    determineQuestionType doc = determineQuestionTypeSpec doc := by
  cases hf : doc.type_field with
  | some txt =>
    simp only [determineQuestionType, determineQuestionTypeSpec, hf]
    cases questionTypeTable (lowerStr txt) <;> rfl
  | none =>
    cases hr : doc.response_cardinality with
    | none => simp only [determineQuestionType, determineQuestionTypeSpec, hf, hr]
    | some card? =>
      simp only [determineQuestionType, determineQuestionTypeSpec, hf, hr]
      by_cases h1 : card?.getD "single" = "multiple"
      · simp [h1]
      · by_cases h2 : card?.getD "single" = "single"
        · simp [h1, h2]
        · simp [h1, h2]

/-- `_transform_quiz` never touches the processed-assignment set. -/
lemma transformQuiz_processed (s : TransformerState) (quiz : CanvasQuiz) (order : Nat) :
    (transformQuiz s quiz order).1.processed_assignments = s.processed_assignments := by
  have e1 : (transformQuiz s quiz order).1 = (transformQuestions s quiz.questions 0).1 := rfl
  rw [e1]
  exact (transformQuestions_spec quiz.questions s 0).2.2.2

/-- The item loop of a module, for any starting state: the emitted
Tutor assignments carry, in order, exactly the identifiers of the
assignments the items resolved to; and the processed set afterwards
holds exactly those identifiers plus the previous content. -/
lemma transformModuleItems_spec (course : CanvasCourse) (items : List CanvasModuleItem) :
    ∀ s : TransformerState,
    ((transformModuleItems course s items).2.2.2.map (fun ta => ta.source_canvas_id)
        = (foundInItems course items).map (fun a => some a.identifier))
    ∧ (∀ x, x ∈ (transformModuleItems course s items).1.processed_assignments
        ↔ x ∈ (foundInItems course items).map (fun a => a.identifier)
          ∨ x ∈ s.processed_assignments) := by
  induction items with
  | nil =>
    intro s
    constructor
    · rfl
    · intro x; simp [transformModuleItems, foundInItems]
  | cons item rest ih =>
    intro s
    by_cases hp : item.content_type = some "page"
    · have hfi : foundInItems course (item :: rest) = foundInItems course rest := by
        simp [foundInItems, List.filterMap_cons, hp]
      cases hfp : findPage course item with
      | some page =>
        obtain ⟨ih1, ih2⟩ := ih s
        rcases hrec : transformModuleItems course s rest with ⟨s1, ls, qs, asg⟩
        rw [hrec] at ih1 ih2
        dsimp only at ih1 ih2
        have hmain : transformModuleItems course s (item :: rest)
            = (s1, transformPageToLesson page ((item.position).getD 0) :: ls, qs, asg) := by
          simp [transformModuleItems, hp, hfp, hrec]
        rw [hmain, hfi]
        exact ⟨ih1, ih2⟩
      | none =>
        obtain ⟨ih1, ih2⟩ := ih s
        have hmain : transformModuleItems course s (item :: rest)
            = transformModuleItems course s rest := by
          simp [transformModuleItems, hp, hfp]
        rw [hmain, hfi]
        exact ⟨ih1, ih2⟩
    · by_cases hq : item.content_type = some "quiz"
      · have hfi : foundInItems course (item :: rest) = foundInItems course rest := by
          simp [foundInItems, List.filterMap_cons, hq]
        cases hfq : findQuiz course item with
        | some quiz =>
          obtain ⟨ih1, ih2⟩ := ih (transformQuiz s quiz ((item.position).getD 0)).1
          rcases hrec : transformModuleItems course
              (transformQuiz s quiz ((item.position).getD 0)).1 rest with ⟨s1, ls, qs, asg⟩
          rw [hrec] at ih1 ih2
          dsimp only at ih1 ih2
          have hmain : transformModuleItems course s (item :: rest)
              = (s1, ls, (transformQuiz s quiz ((item.position).getD 0)).2 :: qs, asg) := by
            simp [transformModuleItems, hp, hq, hfq, hrec]
          rw [hmain, hfi]
          refine ⟨ih1, fun x => ?_⟩
          rw [ih2 x, transformQuiz_processed]
        | none =>
          obtain ⟨ih1, ih2⟩ := ih s
          have hmain : transformModuleItems course s (item :: rest)
              = transformModuleItems course s rest := by
            simp [transformModuleItems, hp, hq, hfq]
          rw [hmain, hfi]
          exact ⟨ih1, ih2⟩
      · by_cases ha : item.content_type = some "assignment"
        · have hfi : foundInItems course (item :: rest)
              = (match findAssignment course item with
                 | some a => a :: foundInItems course rest
                 | none => foundInItems course rest) := by
            simp only [foundInItems, List.filterMap_cons, ha, if_pos]
            cases findAssignment course item <;> rfl
          cases hfa : findAssignment course item with
          | some a =>
            obtain ⟨ih1, ih2⟩ :=
              ih (transformAssignment s a ((item.position).getD 0)).1
            rcases hrec : transformModuleItems course
                (transformAssignment s a ((item.position).getD 0)).1 rest with ⟨s1, ls, qs, asg⟩
            rw [hrec] at ih1 ih2
            dsimp only at ih1 ih2
            have hmain : transformModuleItems course s (item :: rest)
                = (s1, ls, qs, (transformAssignment s a ((item.position).getD 0)).2 :: asg) := by
              simp [transformModuleItems, hp, hq, ha, hfa, hrec]
            rw [hmain, hfi, hfa]
            constructor
            · dsimp only
              simp only [List.map_cons]
              rw [ih1]
              rfl
            · intro x
              dsimp only
              rw [ih2 x]
              have hproc : (transformAssignment s a ((item.position).getD 0)).1.processed_assignments
                  = a.identifier :: s.processed_assignments := rfl
              rw [hproc]
              simp only [List.map_cons, List.mem_cons]
              tauto
          | none =>
            obtain ⟨ih1, ih2⟩ := ih s
            have hmain : transformModuleItems course s (item :: rest)
                = transformModuleItems course s rest := by
              simp [transformModuleItems, hp, hq, ha, hfa]
            rw [hmain, hfi, hfa]
            exact ⟨ih1, ih2⟩
        · have hfi : foundInItems course (item :: rest) = foundInItems course rest := by
            simp [foundInItems, List.filterMap_cons, ha]
          obtain ⟨ih1, ih2⟩ := ih s
          have hmain : transformModuleItems course s (item :: rest)
              = transformModuleItems course s rest := by
            simp [transformModuleItems, hp, hq, ha]
          rw [hmain, hfi]
          exact ⟨ih1, ih2⟩

/-- Set-membership reading of `List.contains`. -/
lemma contains_iff (l : List String) (x : String) : l.contains x = true ↔ x ∈ l :=
  List.elem_iff

/-- The module loop, for any starting state: flattening the assignment
lists of the emitted topics gives, in order, exactly the identifiers of
the module-matched assignments; the processed set afterwards holds
exactly those identifiers plus the previous content. -/
lemma transformModulesAux_spec (course : CanvasCourse) (ms : List CanvasModule) :
    ∀ s : TransformerState,
    (((transformModulesAux course s ms).2.map
        (fun t => t.assignments.map (fun ta => ta.source_canvas_id))).flatten
      = (ms.flatMap (fun m => foundInItems course m.items)).map (fun a => some a.identifier))
    ∧ (∀ x, x ∈ (transformModulesAux course s ms).1.processed_assignments
        ↔ x ∈ (ms.flatMap (fun m => foundInItems course m.items)).map (fun a => a.identifier)
          ∨ x ∈ s.processed_assignments) := by
  induction ms with
  | nil =>
    intro s
    constructor
    · rfl
    · intro x; simp [transformModulesAux]
  | cons m rest ih =>
    intro s
    obtain ⟨hm1, hm2⟩ := transformModuleItems_spec course m.items s
    have et : (transformModuleToTopic course s m).2.assignments
        = (transformModuleItems course s m.items).2.2.2 := rfl
    have es : (transformModuleToTopic course s m).1
        = (transformModuleItems course s m.items).1 := rfl
    obtain ⟨ih1, ih2⟩ := ih (transformModuleToTopic course s m).1
    have hmain : transformModulesAux course s (m :: rest)
        = ((transformModulesAux course (transformModuleToTopic course s m).1 rest).1,
           (transformModuleToTopic course s m).2
             :: (transformModulesAux course (transformModuleToTopic course s m).1 rest).2) := by
      rcases h1 : transformModuleToTopic course s m with ⟨s1, t⟩
      rcases h2 : transformModulesAux course s1 rest with ⟨s2, ts⟩
      simp [transformModulesAux, h1, h2]
    rw [hmain]
    constructor
    · dsimp only
      simp only [List.map_cons, List.flatten_cons]
      rw [ih1, et, hm1, List.flatMap_cons, List.map_append]
    · intro x
      dsimp only
      rw [ih2 x, es, hm2 x, List.flatMap_cons, List.map_append, List.mem_append]
      tauto

/-- The orphaned-assignment loop emits, in order, one Tutor assignment
per orphan, carrying its identifier. -/
lemma transformOrphanAssignments_ids (orphans : List CanvasAssignment) :
    ∀ (s : TransformerState) (i : Nat),
    (transformOrphanAssignments s orphans i).2.map (fun ta => ta.source_canvas_id)
      = orphans.map (fun a => some a.identifier) := by
  induction orphans with
  | nil => intro s i; rfl
  | cons a rest ih =>
    intro s i
    rcases h1 : transformAssignment s a i with ⟨s1, ta⟩
    have hmain : transformOrphanAssignments s (a :: rest) i
        = ((transformOrphanAssignments s1 rest (i + 1)).1,
           ta :: (transformOrphanAssignments s1 rest (i + 1)).2) := by
      rcases h2 : transformOrphanAssignments s1 rest (i + 1) with ⟨s2, tas⟩
      simp [transformOrphanAssignments, h1, h2]
    rw [hmain]
    simp only [List.map_cons]
    rw [ih s1 (i + 1)]
    have hta : ta = (transformAssignment s a i).2 := by rw [h1]
    rw [hta]
    rfl

/-- Two booleans whose truth conditions agree are equal. -/
lemma bool_eq_of_iff {a b : Bool} (h : a = true ↔ b = true) : a = b := by
  cases a <;> cases b <;> simp_all

/-- The filter `transform` applies to `course.assignments` keeps
exactly the assignments whose identifier no module item processed. -/
lemma transform_orphan_filter (course : CanvasCourse) :
    course.assignments.filter (fun a =>
        !((transformModulesAux course initialTransformerState
            course.modules).1.processed_assignments.contains a.identifier))
      = orphanedAssignments course := by
  unfold orphanedAssignments
  apply List.filter_congr
  intro a _
  have hiff : a.identifier
        ∈ (transformModulesAux course initialTransformerState
            course.modules).1.processed_assignments
      ↔ a.identifier ∈ ((moduleFoundAssignments course).map (fun b => b.identifier)) := by
    rw [(transformModulesAux_spec course course.modules initialTransformerState).2 a.identifier]
    simp [initialTransformerState, moduleFoundAssignments]
  have e1 := contains_iff
    (transformModulesAux course initialTransformerState course.modules).1.processed_assignments
    a.identifier
  have e2 := contains_iff ((moduleFoundAssignments course).map (fun b => b.identifier)) a.identifier
  exact congrArg (fun b => !b) (bool_eq_of_iff (e1.trans (hiff.trans e2.symm)))

/-- The topics of the transformed course: the module topics in order,
followed — when any assignment was left unprocessed — by the one
synthetic "Assignments" topic holding the orphaned assignments. -/
lemma transform_topics (course : CanvasCourse) :
    (transform course).1.topics
      = (transformModulesAux course initialTransformerState course.modules).2
        ++ (if (orphanedAssignments course).isEmpty then []
            else
              [{ topic_title := "Assignments"
                 topic_order :=
                   (transformModulesAux course initialTransformerState course.modules).2.length + 1
                 lessons := []
                 quizzes := []
                 assignments :=
                   (transformOrphanAssignments
                     (transformModulesAux course initialTransformerState course.modules).1
                     (orphanedAssignments course) 0).2
                 source_canvas_id := some "orphaned_assignments_topic" }]) := by
  by_cases ho : (orphanedAssignments course).isEmpty
  · simp only [transform, transform_orphan_filter, ho, if_true, if_pos]
    simp
  · simp only [transform, transform_orphan_filter, ho, if_false]
    simp [ho]

/-- Counting `some x` among wrapped identifiers. -/
lemma count_some_id (l : List CanvasAssignment) (x : String) :
    (l.map (fun a => some a.identifier)).count (some x)
      = (l.map (fun a => a.identifier)).count x := by
  induction l with
  | nil => rfl
  | cons a rest ih => simp [List.count_cons, ih, beq_iff_eq]

/-- Occurrences of a source identifier in the output course: its count
among the module-matched assignments plus its count among the orphaned
assignments. -/
lemma transform_assignment_count (course : CanvasCourse) (x : String) :
    assignmentIdCount (transform course).1 x
      = ((moduleFoundAssignments course).map (fun a => a.identifier)).count x
        + ((orphanedAssignments course).map (fun a => a.identifier)).count x := by
  unfold assignmentIdCount
  rw [transform_topics, List.map_append, List.flatten_append, List.count_append]
  congr 1
  · rw [(transformModulesAux_spec course course.modules initialTransformerState).1]
    exact count_some_id _ x
  · by_cases ho : (orphanedAssignments course).isEmpty
    · rw [if_pos ho]
      have he : orphanedAssignments course = [] := List.isEmpty_iff.mp ho
      rw [he]
      simp
    · rw [if_neg ho]
      simp only [List.map_cons, List.map_nil, List.flatten_cons, List.flatten_nil,
        List.append_nil]
      rw [transformOrphanAssignments_ids]
      exact count_some_id _ x

/-- C7 (amended): every assignment not matched by any module item lands
in the synthetic "Assignments" topic appended after the module topics,
and one matched by a module item never reappears there; provided the
parsed assignments have pairwise distinct identifiers and each
assignment is matched by at most one module item, every parsed
assignment identifier is emitted exactly once in the output course. -/
theorem c7_assignment_emitted_once (course : CanvasCourse)
    (hids : (course.assignments.map (fun a => a.identifier)).Nodup)
    (hfound : ((moduleFoundAssignments course).map (fun a => a.identifier)).Nodup) :
    ∀ a ∈ course.assignments, assignmentIdCount (transform course).1 a.identifier = 1 := by
  intro a ha
  rw [transform_assignment_count]
  by_cases hx : a.identifier ∈ (moduleFoundAssignments course).map (fun b => b.identifier)
  · rw [List.count_eq_one_of_mem hfound hx]
    have hzero : a.identifier ∉ (orphanedAssignments course).map (fun b => b.identifier) := by
      intro hmem
      obtain ⟨b, hb, hbid⟩ := List.mem_map.mp hmem
      obtain ⟨hbmem, hbpred⟩ := List.mem_filter.mp hb
      rw [hbid] at hbpred
      have hcf : ((moduleFoundAssignments course).map
          (fun b => b.identifier)).contains a.identifier = false := by
        simpa using hbpred
      have hct := (contains_iff _ _).mpr hx
      rw [hct] at hcf
      simp at hcf
    rw [List.count_eq_zero_of_not_mem hzero]
  · rw [List.count_eq_zero_of_not_mem hx]
    have hmem_orph : a ∈ orphanedAssignments course := by
      apply List.mem_filter.mpr
      refine ⟨ha, ?_⟩
      have hcf : ((moduleFoundAssignments course).map
          (fun b => b.identifier)).contains a.identifier = false := by
        cases hc : ((moduleFoundAssignments course).map
            (fun b => b.identifier)).contains a.identifier with
        | false => rfl
        | true => exact absurd ((contains_iff _ _).mp hc) hx
      rw [hcf]
      rfl
    have hsub : List.Sublist ((orphanedAssignments course).map (fun b => b.identifier))
        (course.assignments.map (fun b => b.identifier)) :=
      List.Sublist.map _ (List.filter_sublist _)
    have hnodup_orph : ((orphanedAssignments course).map (fun b => b.identifier)).Nodup :=
      List.Nodup.sublist hsub hids
    have hmem_id : a.identifier ∈ (orphanedAssignments course).map (fun b => b.identifier) :=
      List.mem_map.mpr ⟨a, hmem_orph, rfl⟩
    rw [List.count_eq_one_of_mem hnodup_orph hmem_id]

/-- C7 witness: in a course with one module-matched and one loose
assignment, the loose identifier is emitted exactly once. -/
theorem c7_assignment_emitted_once_witness :
    assignmentIdCount (transform c7wCourse).1 "asg2" = 1 :=
  c7_assignment_emitted_once c7wCourse (by decide) (by decide) c7wLoose (by decide)

end Canvas2Tutor
